import Mathlib

/-!
Shallow embedding of `src/main.py` (gandi-dns-update), a dynamic-DNS updater:
it loads a JSON configuration, discovers the public IP address via an HTTP
GET, and pushes it to the DNS provider with an authenticated HTTP PUT.

External effects (file reading plus JSON decoding, the two HTTP round trips,
and the standard-library IP-address parser) are modelled as oracle inputs
threaded through the functions; each function additionally returns the list
of observable events (log lines without their timestamps, file reads, HTTP
requests) it emits, in program order.  Python strings are `String`, Python
ints are `Int`; the dynamically typed values decoded from JSON are the
inductive `JVal`.
-/

namespace GandiDns

/-- A JSON value as produced by `json.load` (doubling as a dynamically typed
Python value: `Config(**data)` stores arbitrary such values in its fields).
Non-integral JSON numbers are carried by `float` with their textual form. -/
inductive JVal where
  | str (s : String)
  | int (n : Int)
  | bool (b : Bool)
  | float (text : String)
  | null
  | arr (xs : List JVal)
  | obj (fields : List (String × JVal))

/-- Python `isinstance(v, str)`. -/
def isPyStr : JVal → Bool
  | .str _ => true
  | _ => false

/-- Python `isinstance(v, int)`: `bool` is a subclass of `int` in Python. -/
def isPyInt : JVal → Bool
  | .int _ => true
  | .bool _ => true
  | _ => false

/-- The integer value of a Python `int` (or `bool`, which compares as 0/1);
other cases are unreachable where this is used. -/
def pyIntVal : JVal → Int
  | .int n => n
  | .bool b => if b then 1 else 0
  | _ => 0

/-- Python `str(v)` as used in the f-strings of the source, for the scalar
values that can reach them (container reprs are abbreviated; no claim
exercises them). -/
def pyText : JVal → String
  | .str s => s
  | .int n => toString n
  | .bool b => if b then "True" else "False"
  | .float t => t
  | .null => "None"
  | .arr _ => "<list>"
  | .obj _ => "<dict>"

/-- The result of `ipaddress.ip_address`: either an `IPv4Address` or an
`IPv6Address`; each carries its canonical text form (Python `str(address)`). -/
inductive IPAddr where
  | v4 (text : String)
  | v6 (text : String)

/-- Python `str(address)`. -/
def IPAddr.toText : IPAddr → String
  | .v4 s => s
  | .v6 s => s

/-- An HTTP response as seen through `requests`: status code and body text. -/
structure HttpResponse where
  status_code : Int
  text : String

/-- The `requests.put` call of `update_domain`: URL, the Authorization
header value, and the JSON body fields `rrset_ttl` and `rrset_values`. -/
structure PutRequest where
  url : String
  authHeader : String
  rrset_ttl : JVal
  rrset_values : List String

/-- Observable events, in program order: a log line (the message without the
timestamp `log` prepends), a file read attempt, an HTTP GET attempt, an HTTP
PUT attempt.  `traceback.print_exc()` output is not modelled separately: the
exception text already appears in the accompanying log line. -/
inductive Event where
  | log (msg : String)
  | fileRead (path : String)
  | httpGet (url : String)
  | httpPut (req : PutRequest)

def Event.isFileRead : Event → Bool
  | .fileRead _ => true
  | _ => false

def Event.isHttpGet : Event → Bool
  | .httpGet _ => true
  | _ => false

def Event.isHttpPut : Event → Bool
  | .httpPut _ => true
  | _ => false

/-- The log lines of a trace, in order. -/
def logsOf : List Event → List String
  | [] => []
  | .log m :: rest => m :: logsOf rest
  | _ :: rest => logsOf rest

/-- The PUT requests attempted in a trace, in order. -/
def putsOf : List Event → List PutRequest
  | [] => []
  | .httpPut r :: rest => r :: putsOf rest
  | _ :: rest => putsOf rest

/-- The URLs of the GET requests attempted in a trace, in order. -/
def getsOf : List Event → List String
  | [] => []
  | .httpGet u :: rest => u :: getsOf rest
  | _ :: rest => getsOf rest

/-- The `Config` dataclass: three dynamically typed fields (the dataclass
constructor performs no type checking). -/
structure Config where
  pat : JVal
  domain : JVal
  ttl : JVal

/-- Validation `Config.is_valid`: checks field types and `ttl >= 300`, logging the first
violation; returns the verdict and the log lines it emitted. -/
def Config.is_valid (c : Config) : Bool × List String :=
  if ¬ isPyStr c.pat then
    (false, ["Field \x27pat\x27 is not a string."])
  else if ¬ isPyStr c.domain then
    (false, ["Field \x27domain\x27 is not a string."])
  else if ¬ isPyInt c.ttl then
    (false, ["Field \x27ttl\x27 is not an integer."])
  else if pyIntVal c.ttl < 300 then
    (false, ["Field \x27ttl\x27 must be greater or equal than 300."])
  else
    (true, [])

/-- Last-occurrence lookup in a decoded JSON object, matching the dict
`json.load` builds (later duplicate keys overwrite earlier ones). -/
def lookupField : List (String × JVal) → String → Option JVal
  | [], _ => none
  | (k, v) :: rest, key =>
    match lookupField rest key with
    | some w => some w
    | none => if k = key then some v else none

/-- The keyword parameters accepted by `Config(**data)`. -/
def configKeys : List String := ["pat", "domain", "ttl"]

/-- Construction `Config(**data)`: requires `data` to be a mapping whose keys are exactly
`pat`, `domain`, `ttl`; any other shape raises a `TypeError` (modelled as
`Except.error` carrying the exception text). -/
def configOfData : JVal → Except String Config
  | .obj fields =>
    if fields.all (fun kv => configKeys.contains kv.1) then
      match lookupField fields "pat", lookupField fields "domain",
            lookupField fields "ttl" with
      | some p, some d, some t => .ok ⟨p, d, t⟩
      | _, _, _ =>
        .error "Config.__init__() missing required positional argument"
    else
      .error "Config.__init__() got an unexpected keyword argument"
  | _ => .error "main.Config() argument after ** must be a mapping"

/-- The config loader `load_config`: the outcome of `open(path)` followed by `json.load` is the
oracle `readJson` (an exception text, or the decoded JSON value).  Returns
the optional `Config` and the event trace. -/
def load_config (path : String) (readJson : Except String JVal) :
    Option Config × List Event :=
  let head := Event.log ("Loading config at path \x27" ++ path ++ "\x27...")
  let rd := Event.fileRead path
  match readJson with
  | .error e => (none, [head, rd, .log ("Failed to load config: " ++ e)])
  | .ok data =>
    match configOfData data with
    | .error e => (none, [head, rd, .log ("Failed to load config: " ++ e)])
    | .ok config =>
      match config.is_valid with
      | (true, _) => (some config, [head, rd])
      | (false, vlogs) =>
        (none, [head, rd] ++ vlogs.map Event.log ++ [.log "Config is invalid."])

/-- The fixed IP-discovery endpoint. -/
def ipifyUrl : String := "https://api.ipify.org"

/-- The address resolver `get_ip_address`: the GET round trip is the oracle `resp` (exception text
or response); `parseIp` is the `ipaddress.ip_address` parser on the response
body.  Returns the optional address and the event trace (including the
IPv6 warning, which does not abort the run). -/
def get_ip_address (resp : Except String HttpResponse)
    (parseIp : String → Except String IPAddr) : Option IPAddr × List Event :=
  let head := Event.log
    ("Requesting public IP address from \x27" ++ ipifyUrl ++ "\x27...")
  let att := Event.httpGet ipifyUrl
  match resp with
  | .error e =>
    (none, [head, att, .log ("Failed to reach public IP address service: " ++ e)])
  | .ok r =>
    if r.status_code ≠ 200 then
      (none, [head, att, .log ("Failed to retrieve public IP address. HTTP status: \x27"
        ++ toString r.status_code ++ "\x27, text: \x27" ++ r.text ++ "\x27.")])
    else
      match parseIp r.text with
      | .error e =>
        (none, [head, att, .log ("Retrieved value \x27" ++ r.text
          ++ "\x27 is not a valid IP address: " ++ e)])
      | .ok addr =>
        let warn : List Event :=
          match addr with
          | .v4 _ => []
          | .v6 s => [.log ("Expected address \x27" ++ s
              ++ "\x27 to be an IPv4Address, but got \x27<class \x27ipaddress.IPv6Address\x27>\x27.")]
        (some addr, [head, att] ++ warn
          ++ [.log ("Retrieved public IP address \x27" ++ addr.toText ++ "\x27.")])

/-- The record updater `update_domain`: builds the zone-apex A-record URL and the authenticated
PUT; the round trip is the oracle `resp`.  Returns the success flag and the
event trace containing the one attempted PUT. -/
def update_domain (address : IPAddr) (config : Config)
    (resp : Except String HttpResponse) : Bool × List Event :=
  let url := "https://api.gandi.net/v5/livedns/domains/" ++ pyText config.domain
    ++ "/records/@/A"
  let head := Event.log ("Updating DNS record at \x27" ++ url
    ++ "\x27 with address \x27" ++ address.toText ++ "\x27...")
  let req : PutRequest :=
    ⟨url, "Bearer " ++ pyText config.pat, config.ttl, [address.toText]⟩
  match resp with
  | .error e =>
    (false, [head, .httpPut req, .log ("Failed to reach DNS registrar service: " ++ e)])
  | .ok r =>
    if r.status_code ≠ 201 then
      (false, [head, .httpPut req, .log ("Failed to update DNS entry. HTTP status: \x27"
        ++ toString r.status_code ++ "\x27, text: \x27" ++ r.text ++ "\x27.")])
    else
      (true, [head, .httpPut req, .log "DNS entry updated."])

/-- The external world of one run: the config-file read, the GET response,
the IP parser, and the PUT response. -/
structure Env where
  readJson : Except String JVal
  ipResp : Except String HttpResponse
  parseIp : String → Except String IPAddr
  putResp : Except String HttpResponse

/-- The orchestrator `main`: checks the argument count, then runs the three steps in order,
short-circuiting on the first failure.  `argv` includes the program name, as
`sys.argv` does. -/
def main (argv : List String) (env : Env) : Bool × List Event :=
  if argv.length ≠ 2 then
    (false, [.log ("Incorrect number of arguments. Expected 1, received "
      ++ toString ((argv.length : Int) - 1) ++ ".")])
  else
    let path := argv.getD 1 ""
    let lc := load_config path env.readJson
    match lc.1 with
    | none => (false, lc.2)
    | some config =>
      let gi := get_ip_address env.ipResp env.parseIp
      match gi.1 with
      | none => (false, lc.2 ++ gi.2)
      | some address =>
        let ud := update_domain address config env.putResp
        (ud.1, lc.2 ++ gi.2 ++ ud.2)

/-- The `if __name__ == "__main__"` block: wraps `main` with the framing log
lines and turns its Boolean into the process exit code (0 or 1). -/
def script (argv : List String) (env : Env) : Nat × List Event :=
  let m := main argv env
  if m.1 then
    (0, Event.log "Running script..." :: m.2 ++ [Event.log "Script succeeded."])
  else
    (1, Event.log "Running script..." :: m.2 ++ [Event.log "Script failed."])

/-- A concrete environment in which every external effect fails; used by
witnesses that only exercise the argument-count check. -/
def envFail : Env :=
  ⟨.error "boom", .error "boom", fun _ => .error "boom", .error "boom"⟩

/-- A concrete IP parser for witnesses: accepts the spec's example IPv4
address and one IPv6 loopback literal, rejects everything else. -/
def parseExample : String → Except String IPAddr := fun text =>
  if text = "203.0.113.7" then .ok (.v4 "203.0.113.7")
  else if text = "::1" then .ok (.v6 "::1")
  else .error ("\x27" ++ text ++ "\x27 does not appear to be an IPv4 or IPv6 address")

/-- Modelled from the spec: the repository contains no config writer, so
writing a valid Configuration as a JSON config file is modelled as producing
the JSON object with exactly the fields `pat`, `domain`, `ttl`; serializing
that object to text and decoding it back through `json.load` is the identity,
so `load_config` applied to the written file sees exactly this value. -/
def configToData (c : Config) : JVal :=
  .obj [("pat", c.pat), ("domain", c.domain), ("ttl", c.ttl)]

/-- A concrete JSON value decoding to the spec's example configuration. -/
def goodData : JVal :=
  .obj [("pat", .str "tok"), ("domain", .str "example.com"), ("ttl", .int 300)]

/-- A concrete environment in which every step succeeds. -/
def envOk : Env :=
  ⟨.ok goodData, .ok ⟨200, "203.0.113.7"⟩, parseExample, .ok ⟨201, "created"⟩⟩

/-- A concrete environment whose IP-discovery endpoint answers with an IPv6
address while everything else succeeds. -/
def envV6 : Env :=
  ⟨.ok goodData, .ok ⟨200, "::1"⟩, parseExample, .ok ⟨201, "created"⟩⟩

/-- An environment whose config file holds the given `pat` string alongside
fixed `domain`/`ttl` values, with the network oracles held fixed: two such
environments differing only in `pat` are the two runs claim C10 compares. -/
def envWithPat (p : String) (dv tv : JVal) (ir : Except String HttpResponse)
    (pf : String → Except String IPAddr) (pr : Except String HttpResponse) :
    Env :=
  ⟨.ok (.obj [("pat", .str p), ("domain", dv), ("ttl", tv)]), ir, pf, pr⟩

/-! ### Theorems -/

lemma logsOf_append (l1 l2 : List Event) :
    logsOf (l1 ++ l2) = logsOf l1 ++ logsOf l2 := by
  induction l1 with
  | nil => rfl
  | cons e rest ih => cases e <;> simp [logsOf, ih]

lemma logsOf_map_log (xs : List String) : logsOf (xs.map Event.log) = xs := by
  induction xs with
  | nil => rfl
  | cons x rest ih => simp [logsOf, ih]

lemma putsOf_append (l1 l2 : List Event) :
    putsOf (l1 ++ l2) = putsOf l1 ++ putsOf l2 := by
  induction l1 with
  | nil => rfl
  | cons e rest ih => cases e <;> simp [putsOf, ih]

lemma putsOf_map_log (xs : List String) : putsOf (xs.map Event.log) = [] := by
  induction xs with
  | nil => rfl
  | cons x rest ih => simp [putsOf, ih]

lemma putsOf_load_config (path : String) (rj : Except String JVal) :
    putsOf (load_config path rj).2 = [] := by
  cases rj with
  | error e => rfl
  | ok data =>
    cases hcd : configOfData data with
    | error e => simp [load_config, hcd, putsOf]
    | ok cfg =>
      cases hv : Config.is_valid cfg with
      | mk b vlogs =>
        cases b <;>
          simp [load_config, hcd, hv, putsOf, putsOf_append, putsOf_map_log]

lemma putsOf_get_ip (resp : Except String HttpResponse)
    (parseIp : String → Except String IPAddr) :
    putsOf (get_ip_address resp parseIp).2 = [] := by
  cases resp with
  | error e => rfl
  | ok r =>
    by_cases h200 : r.status_code = 200
    · cases hp : parseIp r.text with
      | error e => simp [get_ip_address, h200, hp, putsOf]
      | ok a =>
        cases a <;>
          simp [get_ip_address, h200, hp, putsOf, putsOf_append]
    · simp [get_ip_address, h200, putsOf]

lemma putsOf_update_domain (a : IPAddr) (c : Config)
    (resp : Except String HttpResponse) :
    putsOf (update_domain a c resp).2 =
      [⟨"https://api.gandi.net/v5/livedns/domains/" ++ pyText c.domain
          ++ "/records/@/A",
        "Bearer " ++ pyText c.pat, c.ttl, [a.toText]⟩] := by
  cases resp with
  | error e => simp [update_domain, putsOf]
  | ok r =>
    by_cases h : r.status_code = 201 <;> simp [update_domain, h, putsOf]

lemma getsOf_append (l1 l2 : List Event) :
    getsOf (l1 ++ l2) = getsOf l1 ++ getsOf l2 := by
  induction l1 with
  | nil => rfl
  | cons e rest ih => cases e <;> simp [getsOf, ih]

lemma getsOf_map_log (xs : List String) : getsOf (xs.map Event.log) = [] := by
  induction xs with
  | nil => rfl
  | cons x rest ih => simp [getsOf, ih]

lemma getsOf_load_config (path : String) (rj : Except String JVal) :
    getsOf (load_config path rj).2 = [] := by
  cases rj with
  | error e => rfl
  | ok data =>
    cases hcd : configOfData data with
    | error e => simp [load_config, hcd, getsOf]
    | ok cfg =>
      cases hv : Config.is_valid cfg with
      | mk b vlogs =>
        cases b <;>
          simp [load_config, hcd, hv, getsOf, getsOf_append, getsOf_map_log]

lemma main_two_args_none (prog path : String) (env : Env)
    (hlc : (load_config path env.readJson).1 = none) :
    main [prog, path] env = (false, (load_config path env.readJson).2) := by
  rw [main]
  simp only [List.length_cons, List.length_nil]
  rw [if_neg (by norm_num)]
  have hpath : [prog, path].getD 1 "" = path := rfl
  simp only [hpath, hlc]

lemma main_two_args_ip_none (prog path : String) (env : Env) (c : Config)
    (hlc : (load_config path env.readJson).1 = some c)
    (hgi : (get_ip_address env.ipResp env.parseIp).1 = none) :
    main [prog, path] env =
      (false, (load_config path env.readJson).2
        ++ (get_ip_address env.ipResp env.parseIp).2) := by
  rw [main]
  simp only [List.length_cons, List.length_nil]
  rw [if_neg (by norm_num)]
  have hpath : [prog, path].getD 1 "" = path := rfl
  simp only [hpath, hlc, hgi]

lemma main_two_args_some (prog path : String) (env : Env) (c : Config)
    (a : IPAddr) (hlc : (load_config path env.readJson).1 = some c)
    (hgi : (get_ip_address env.ipResp env.parseIp).1 = some a) :
    main [prog, path] env =
      ((update_domain a c env.putResp).1,
        (load_config path env.readJson).2
          ++ (get_ip_address env.ipResp env.parseIp).2
          ++ (update_domain a c env.putResp).2) := by
  rw [main]
  simp only [List.length_cons, List.length_nil]
  rw [if_neg (by norm_num)]
  have hpath : [prog, path].getD 1 "" = path := rfl
  simp only [hpath, hlc, hgi]

lemma script_fst (argv : List String) (env : Env) :
    (script argv env).1 = if (main argv env).1 then 0 else 1 := by
  rw [script]
  by_cases h : (main argv env).1 <;> simp [h]

lemma script_snd (argv : List String) (env : Env) :
    (script argv env).2 =
      Event.log "Running script..." :: (main argv env).2
        ++ [Event.log (if (main argv env).1 then "Script succeeded."
            else "Script failed.")] := by
  rw [script]
  by_cases h : (main argv env).1 <;> simp [h]

lemma is_valid_pat_indep (p1 p2 : String) (dv tv : JVal) :
    Config.is_valid ⟨.str p1, dv, tv⟩ = Config.is_valid ⟨.str p2, dv, tv⟩ := by
  simp [Config.is_valid, isPyStr]

lemma update_domain_pat_indep (a : IPAddr) (p1 p2 : String) (dv tv : JVal)
    (resp : Except String HttpResponse) :
    (update_domain a ⟨.str p1, dv, tv⟩ resp).1 =
      (update_domain a ⟨.str p2, dv, tv⟩ resp).1 ∧
    logsOf (update_domain a ⟨.str p1, dv, tv⟩ resp).2 =
      logsOf (update_domain a ⟨.str p2, dv, tv⟩ resp).2 := by
  cases resp with
  | error e => simp [update_domain, logsOf, pyText]
  | ok r =>
    by_cases h : r.status_code = 201 <;>
      simp [update_domain, h, logsOf, pyText]

lemma isPyStr_iff (v : JVal) : isPyStr v = true ↔ ∃ s, v = .str s := by
  cases v <;> simp [isPyStr]

lemma is_valid_ttl (v : JVal) (h1 : isPyInt v = true)
    (h2 : ¬ pyIntVal v < 300) : ∃ n, v = .int n ∧ 300 ≤ n := by
  cases v with
  | int n => exact ⟨n, rfl, by simpa [pyIntVal] using h2⟩
  | bool b =>
    exfalso
    cases b <;> simp [pyIntVal] at h2
  | str s => simp [isPyInt] at h1
  | float s => simp [isPyInt] at h1
  | null => simp [isPyInt] at h1
  | arr xs => simp [isPyInt] at h1
  | obj fs => simp [isPyInt] at h1

lemma is_valid_true_shape (c : Config) (h : (Config.is_valid c).1 = true) :
    (∃ s, c.pat = .str s) ∧ (∃ s, c.domain = .str s) ∧
      ∃ n, c.ttl = .int n ∧ 300 ≤ n := by
  unfold Config.is_valid at h
  split_ifs at h with h1 h2 h3 h4
  all_goals first
    | exact absurd h Bool.false_ne_true
    | exact ⟨(isPyStr_iff _).mp h1, (isPyStr_iff _).mp h2, is_valid_ttl _ h3 h4⟩

lemma load_config_some (path : String) (rj : Except String JVal) (c : Config)
    (h : (load_config path rj).1 = some c) : (Config.is_valid c).1 = true := by
  cases rj with
  | error e => simp [load_config] at h
  | ok data =>
    cases hcd : configOfData data with
    | error e => simp [load_config, hcd] at h
    | ok cfg =>
      cases hv : Config.is_valid cfg with
      | mk b logs =>
        cases b with
        | false => simp [load_config, hcd, hv] at h
        | true =>
          simp [load_config, hcd, hv] at h
          rw [← h, hv]

/-- Claim C1: for every resolved address and valid configuration
(`pat`/`domain` strings, integer `ttl ≥ 300`), `update_domain` attempts
exactly one HTTP PUT, to
`https://api.gandi.net/v5/livedns/domains/<domain>/records/@/A`, carrying
the header value `Bearer <pat>` and the JSON body fields `rrset_ttl = ttl`
and `rrset_values = [str(address)]`; it returns success iff the response
status is 201 (any other status, or a send failure, yields failure). -/
theorem update_domain_request_and_status (p d : String) (t : Int)
    (ht : 300 ≤ t) (address : IPAddr) (resp : Except String HttpResponse) :
    (Config.is_valid ⟨.str p, .str d, .int t⟩).1 = true ∧
    putsOf (update_domain address ⟨.str p, .str d, .int t⟩ resp).2 =
      [⟨"https://api.gandi.net/v5/livedns/domains/" ++ d ++ "/records/@/A",
        "Bearer " ++ p, .int t, [address.toText]⟩] ∧
    ((update_domain address ⟨.str p, .str d, .int t⟩ resp).1 = true ↔
      ∃ r, resp = .ok r ∧ r.status_code = 201) := by
  refine ⟨?_, ?_, ?_⟩
  · have h2 : Config.is_valid ⟨.str p, .str d, .int t⟩ = (true, []) := by
      simp [Config.is_valid, isPyStr, isPyInt, pyIntVal]
      omega
    rw [h2]
  · cases resp with
    | error e => simp [update_domain, putsOf, pyText]
    | ok r =>
      by_cases h : r.status_code = 201 <;>
        simp [update_domain, putsOf, pyText, h]
  · cases resp with
    | error e => simp [update_domain]
    | ok r =>
      by_cases h : r.status_code = 201 <;> simp [update_domain, h]

/-- Witness for C1 at the spec example: token `tok`, domain `example.com`,
TTL 300, address 203.0.113.7, and a 201 response. -/
theorem update_domain_request_and_status_witness :
    putsOf (update_domain (.v4 "203.0.113.7")
        ⟨.str "tok", .str "example.com", .int 300⟩ (.ok ⟨201, ""⟩)).2 =
      [⟨"https://api.gandi.net/v5/livedns/domains/example.com/records/@/A",
        "Bearer tok", .int 300, ["203.0.113.7"]⟩] ∧
    (update_domain (.v4 "203.0.113.7")
        ⟨.str "tok", .str "example.com", .int 300⟩ (.ok ⟨201, ""⟩)).1 = true := by
  have h := update_domain_request_and_status "tok" "example.com" 300
    (by norm_num) (.v4 "203.0.113.7") (.ok ⟨201, ""⟩)
  exact ⟨h.2.1, h.2.2.mpr ⟨⟨201, ""⟩, rfl, rfl⟩⟩

/-- Claim C7: for every invocation whose argument count is not exactly one,
the process logs the usage error and exits with code 1, and no file read,
HTTP GET, or HTTP PUT is ever attempted (the whole trace is the three framing
log lines). -/
theorem script_usage_error (argv : List String) (env : Env)
    (h : argv.length ≠ 2) :
    script argv env =
      (1, [Event.log "Running script...",
        Event.log ("Incorrect number of arguments. Expected 1, received "
          ++ toString ((argv.length : Int) - 1) ++ "."),
        Event.log "Script failed."]) ∧
    (script argv env).2.filter Event.isFileRead = [] ∧
    (script argv env).2.filter Event.isHttpGet = [] ∧
    (script argv env).2.filter Event.isHttpPut = [] := by
  have hs : script argv env =
      (1, [Event.log "Running script...",
        Event.log ("Incorrect number of arguments. Expected 1, received "
          ++ toString ((argv.length : Int) - 1) ++ "."),
        Event.log "Script failed."]) := by
    simp [script, main, h]
  refine ⟨hs, ?_, ?_, ?_⟩ <;> rw [hs] <;> rfl

/-- Witness for C7: a run with zero arguments (only the program name) exits
with code 1 and attempts no file read. -/
theorem script_usage_error_witness :
    (script ["prog"] envFail).1 = 1 ∧
    (script ["prog"] envFail).2.filter Event.isFileRead = [] := by
  have h := script_usage_error ["prog"] envFail (by simp)
  exact ⟨by rw [h.1], h.2.1⟩

/-- Claim C9: round trip — writing a valid Configuration (string `pat` and
`domain`, integer `ttl ≥ 300`) as a JSON config file and loading it back
yields a Configuration with identical field values. -/
theorem load_config_round_trip (path p d : String) (t : Int) (ht : 300 ≤ t) :
    (load_config path (.ok (configToData ⟨.str p, .str d, .int t⟩))).1 =
      some ⟨.str p, .str d, .int t⟩ := by
  have h1 : configOfData (configToData ⟨.str p, .str d, .int t⟩) =
      .ok ⟨.str p, .str d, .int t⟩ := rfl
  have h2 : (Config.is_valid ⟨.str p, .str d, .int t⟩) = (true, []) := by
    simp [Config.is_valid, isPyStr, isPyInt, pyIntVal]
    omega
  simp [load_config, h1, h2]

/-- Witness for C9 at `pat = "tok"`, `domain = "example.com"`, `ttl = 300`. -/
theorem load_config_round_trip_witness :
    (load_config "config.json"
        (.ok (configToData ⟨.str "tok", .str "example.com", .int 300⟩))).1 =
      some ⟨.str "tok", .str "example.com", .int 300⟩ :=
  load_config_round_trip "config.json" "tok" "example.com" 300 (by norm_num)

/-- Claim C3: whenever `load_config` returns a Configuration, it satisfies
the validity invariant — `pat` and `domain` are strings and `ttl` is an
integer at least 300 — and every well-formed config with `ttl < 300` is
rejected (no Configuration returned) regardless of `pat` and `domain`. -/
theorem load_config_validity_invariant :
    (∀ (path : String) (rj : Except String JVal) (c : Config),
      (load_config path rj).1 = some c →
      (∃ s, c.pat = .str s) ∧ (∃ s, c.domain = .str s) ∧
        ∃ n, c.ttl = .int n ∧ 300 ≤ n) ∧
    (∀ (path p d : String) (t : Int), t < 300 →
      (load_config path (.ok (.obj
        [("pat", .str p), ("domain", .str d), ("ttl", .int t)]))).1 = none) := by
  constructor
  · intro path rj c h
    exact is_valid_true_shape c (load_config_some path rj c h)
  · intro path p d t ht
    have hcd : configOfData
        (.obj [("pat", .str p), ("domain", .str d), ("ttl", .int t)]) =
        .ok ⟨.str p, .str d, .int t⟩ := rfl
    have hv : Config.is_valid ⟨.str p, .str d, .int t⟩ =
        (false, ["Field \x27ttl\x27 must be greater or equal than 300."]) := by
      unfold Config.is_valid
      rw [if_neg (by simp [isPyStr]), if_neg (by simp [isPyStr]),
        if_neg (by simp [isPyInt]), if_pos (by simpa [pyIntVal] using ht)]
    simp [load_config, hcd, hv]

/-- Witness for C3: a well-formed config with `ttl = 299` is rejected. -/
theorem load_config_validity_invariant_witness :
    (load_config "config.json" (.ok (.obj [("pat", .str "tok"),
      ("domain", .str "example.com"), ("ttl", .int 299)]))).1 = none :=
  load_config_validity_invariant.2 "config.json" "tok" "example.com" 299
    (by norm_num)

/-- Claim C8: on every failing input — unopenable file or malformed JSON
(the read oracle raises), a JSON shape that does not match the `Config`
record (non-object, missing fields, extra fields), or field values failing
validation (wrong types) — `load_config` returns no Configuration and logs a
diagnostic beyond the opening "Loading config" line.  It never crashes: the
embedding is a total function, mirroring the source's `except` handler and
validation path, which always return `None` rather than propagating. -/
theorem load_config_error_handling :
    (∀ (path e : String), (load_config path (.error e)).1 = none ∧
      2 ≤ (logsOf (load_config path (.error e)).2).length) ∧
    (∀ (path : String) (data : JVal) (e : String), configOfData data = .error e →
      (load_config path (.ok data)).1 = none ∧
      2 ≤ (logsOf (load_config path (.ok data)).2).length) ∧
    (∀ (path : String) (data : JVal) (c : Config), configOfData data = .ok c →
      (Config.is_valid c).1 = false →
      (load_config path (.ok data)).1 = none ∧
      2 ≤ (logsOf (load_config path (.ok data)).2).length) := by
  refine ⟨?_, ?_, ?_⟩
  · intro path e
    constructor
    · simp [load_config]
    · simp [load_config, logsOf]
  · intro path data e hcd
    constructor
    · simp [load_config, hcd]
    · simp [load_config, hcd, logsOf]
  · intro path data c hcd hv
    cases hval : Config.is_valid c with
    | mk b vlogs =>
      have hb : b = false := by rw [hval] at hv; exact hv
      subst hb
      constructor
      · simp [load_config, hcd, hval]
      · simp [load_config, hcd, hval, logsOf, logsOf_append, logsOf_map_log]

/-- Witness for C8: a JSON array is not a mapping, so construction fails and
the loader returns no Configuration while logging a diagnostic. -/
theorem load_config_error_handling_witness :
    (load_config "config.json" (.ok (.arr []))).1 = none ∧
    2 ≤ (logsOf (load_config "config.json" (.ok (.arr []))).2).length :=
  load_config_error_handling.2.1 "config.json" (.arr [])
    "main.Config() argument after ** must be a mapping" rfl

/-- Claim C4: the resolver returns an address iff the GET was sent
successfully, the status is 200, and the body parses as an IP address; and
any returned address is exactly the parse of the response body. -/
theorem get_ip_address_result_spec (resp : Except String HttpResponse)
    (parseIp : String → Except String IPAddr) :
    ((get_ip_address resp parseIp).1.isSome = true ↔
      ∃ r, resp = .ok r ∧ r.status_code = 200 ∧ ∃ a, parseIp r.text = .ok a) ∧
    (∀ (r : HttpResponse) (a : IPAddr), resp = .ok r →
      (get_ip_address resp parseIp).1 = some a → parseIp r.text = .ok a) := by
  cases resp with
  | error e => simp [get_ip_address]
  | ok r =>
    by_cases h200 : r.status_code = 200
    · cases hp : parseIp r.text with
      | error e => simp [get_ip_address, h200, hp]
      | ok a =>
        constructor
        · simp [get_ip_address, h200, hp]
        · intro r' a' hr ha
          cases hr
          rw [hp]
          simp [get_ip_address, h200, hp] at ha
          rw [ha]
    · simp [get_ip_address, h200]

/-- Witness for C4: status 200 with body 203.0.113.7 yields exactly that
address, which is the parse of the body. -/
theorem get_ip_address_result_spec_witness :
    parseExample "203.0.113.7" = .ok (.v4 "203.0.113.7") :=
  (get_ip_address_result_spec (.ok ⟨200, "203.0.113.7"⟩) parseExample).2
    ⟨200, "203.0.113.7"⟩ (.v4 "203.0.113.7") rfl rfl

/-- Claim C5: on any non-200 IP-discovery response the resolver fails, never
consults the IP parser (its outcome is the same for every parser), and logs
the status and body. -/
theorem get_ip_address_bad_status (r : HttpResponse) (h : r.status_code ≠ 200)
    (p1 p2 : String → Except String IPAddr) :
    get_ip_address (.ok r) p1 = get_ip_address (.ok r) p2 ∧
    (get_ip_address (.ok r) p1).1 = none ∧
    ("Failed to retrieve public IP address. HTTP status: \x27"
        ++ toString r.status_code ++ "\x27, text: \x27" ++ r.text ++ "\x27.")
      ∈ logsOf (get_ip_address (.ok r) p1).2 := by
  refine ⟨?_, ?_, ?_⟩ <;> simp [get_ip_address, h, logsOf]

/-- Witness for C5: a 500 response fails with the diagnostic logged. -/
theorem get_ip_address_bad_status_witness :
    (get_ip_address (.ok ⟨500, "Internal Server Error"⟩) parseExample).1 = none ∧
    ("Failed to retrieve public IP address. HTTP status: \x27500\x27, text: \x27Internal Server Error\x27.")
      ∈ logsOf (get_ip_address (.ok ⟨500, "Internal Server Error"⟩) parseExample).2 :=
  (get_ip_address_bad_status ⟨500, "Internal Server Error"⟩ (by norm_num)
    parseExample parseExample).2

/-- Claim C6: a 200 response whose body parses as an IPv6 address is still a
success — the resolver logs the IPv4 warning but returns the address — and a
run whose config loads goes on to attempt the record PUT carrying that
address in `rrset_values`. -/
theorem get_ip_address_ipv6_warning (r : HttpResponse)
    (h200 : r.status_code = 200) (parseIp : String → Except String IPAddr)
    (s : String) (hp : parseIp r.text = .ok (.v6 s)) :
    (get_ip_address (.ok r) parseIp).1 = some (.v6 s) ∧
    ("Expected address \x27" ++ s
        ++ "\x27 to be an IPv4Address, but got \x27<class \x27ipaddress.IPv6Address\x27>\x27.")
      ∈ logsOf (get_ip_address (.ok r) parseIp).2 ∧
    (∀ (prog path : String) (env : Env) (c : Config),
      env.ipResp = .ok r → env.parseIp = parseIp →
      (load_config path env.readJson).1 = some c →
      putsOf (main [prog, path] env).2 =
        [⟨"https://api.gandi.net/v5/livedns/domains/" ++ pyText c.domain
            ++ "/records/@/A",
          "Bearer " ++ pyText c.pat, c.ttl, [s]⟩]) := by
  refine ⟨?_, ?_, ?_⟩
  · simp [get_ip_address, h200, hp]
  · simp [get_ip_address, h200, hp, logsOf, logsOf_append]
  · intro prog path env c hip hpf hlc
    have hgi : (get_ip_address env.ipResp env.parseIp).1 = some (.v6 s) := by
      rw [hip, hpf]
      simp [get_ip_address, h200, hp]
    have hm : main [prog, path] env =
        ((update_domain (.v6 s) c env.putResp).1,
          (load_config path env.readJson).2
            ++ (get_ip_address env.ipResp env.parseIp).2
            ++ (update_domain (.v6 s) c env.putResp).2) := by
      rw [main]
      simp only [List.length_cons, List.length_nil]
      rw [if_neg (by norm_num)]
      have hpath : [prog, path].getD 1 "" = path := rfl
      simp only [hpath, hlc, hgi]
    rw [hm]
    simp [putsOf_append, putsOf_load_config, putsOf_get_ip, putsOf_update_domain,
      IPAddr.toText]

/-- Witness for C6: a 200 response with body `::1` resolves to the IPv6
address `::1`, and a concrete run whose config loads still PUTs `::1` to the
provider. -/
theorem get_ip_address_ipv6_warning_witness :
    (get_ip_address (.ok ⟨200, "::1"⟩) parseExample).1 = some (.v6 "::1") ∧
    putsOf (main ["prog", "config.json"] envV6).2 =
      [⟨"https://api.gandi.net/v5/livedns/domains/example.com/records/@/A",
        "Bearer tok", .int 300, ["::1"]⟩] :=
  ⟨(get_ip_address_ipv6_warning ⟨200, "::1"⟩ rfl parseExample "::1" rfl).1,
    (get_ip_address_ipv6_warning ⟨200, "::1"⟩ rfl parseExample "::1" rfl).2.2
      "prog" "config.json" envV6 ⟨.str "tok", .str "example.com", .int 300⟩
      rfl rfl rfl⟩

/-- Claim C2: with exactly one command-line argument, the process exits 0
iff config loading, address resolution, and record update all succeed (the
exit code is always 0 or 1); if loading fails nothing further runs (no GET,
no PUT attempted) and the exit code is 1; if resolution fails the PUT is
never attempted and the exit code is 1; and when loading and resolution
succeed the whole trace is the three steps' traces in that order. -/
theorem script_pipeline (prog path : String) (env : Env) :
    ((script [prog, path] env).1 = 0 ↔
      ∃ c a, (load_config path env.readJson).1 = some c ∧
        (get_ip_address env.ipResp env.parseIp).1 = some a ∧
        (update_domain a c env.putResp).1 = true) ∧
    ((script [prog, path] env).1 = 0 ∨ (script [prog, path] env).1 = 1) ∧
    ((load_config path env.readJson).1 = none →
      (script [prog, path] env).1 = 1 ∧
      getsOf (script [prog, path] env).2 = [] ∧
      putsOf (script [prog, path] env).2 = []) ∧
    (∀ c, (load_config path env.readJson).1 = some c →
      (get_ip_address env.ipResp env.parseIp).1 = none →
      (script [prog, path] env).1 = 1 ∧
      putsOf (script [prog, path] env).2 = []) ∧
    (∀ c a, (load_config path env.readJson).1 = some c →
      (get_ip_address env.ipResp env.parseIp).1 = some a →
      (script [prog, path] env).2 =
        Event.log "Running script..." ::
          ((load_config path env.readJson).2
            ++ (get_ip_address env.ipResp env.parseIp).2
            ++ (update_domain a c env.putResp).2)
          ++ [Event.log (if (update_domain a c env.putResp).1
              then "Script succeeded." else "Script failed.")]) := by
  refine ⟨?_, ?_, ?_, ?_, ?_⟩
  · constructor
    · intro h0
      cases hlc : (load_config path env.readJson).1 with
      | none =>
        rw [script_fst, main_two_args_none prog path env hlc] at h0
        simp at h0
      | some c =>
        cases hgi : (get_ip_address env.ipResp env.parseIp).1 with
        | none =>
          rw [script_fst, main_two_args_ip_none prog path env c hlc hgi] at h0
          simp at h0
        | some a =>
          refine ⟨c, a, rfl, rfl, ?_⟩
          rw [script_fst, main_two_args_some prog path env c a hlc hgi] at h0
          by_cases hud : (update_domain a c env.putResp).1 = true
          · exact hud
          · simp [hud] at h0
    · rintro ⟨c, a, hlc, hgi, hud⟩
      rw [script_fst, main_two_args_some prog path env c a hlc hgi]
      simp [hud]
  · rw [script_fst]
    by_cases h : (main [prog, path] env).1 <;> simp [h]
  · intro hlc
    have hm := main_two_args_none prog path env hlc
    refine ⟨?_, ?_, ?_⟩
    · rw [script_fst, hm]
      simp
    · rw [script_snd, hm]
      simp [getsOf, getsOf_append, getsOf_load_config]
    · rw [script_snd, hm]
      simp [putsOf, putsOf_append, putsOf_load_config]
  · intro c hlc hgi
    have hm := main_two_args_ip_none prog path env c hlc hgi
    refine ⟨?_, ?_⟩
    · rw [script_fst, hm]
      simp
    · rw [script_snd, hm]
      simp [putsOf, putsOf_append, putsOf_load_config, putsOf_get_ip]
  · intro c a hlc hgi
    rw [script_snd, main_two_args_some prog path env c a hlc hgi]

/-- Witness for C2: a fully successful concrete run exits with code 0, via
the pipeline theorem. -/
theorem script_pipeline_witness :
    (script ["prog", "config.json"] envOk).1 = 0 :=
  (script_pipeline "prog" "config.json" envOk).1.mpr
    ⟨⟨.str "tok", .str "example.com", .int 300⟩, .v4 "203.0.113.7",
      rfl, rfl, rfl⟩

/-- Claim C10: the bearer token never reaches the log output — two runs
identical except for the (string) `pat` value in the config file produce
identical log-line sequences (timestamps are outside the model, so "modulo
timestamps" is literal equality here) and identical exit codes, and their
attempted PUT requests agree except for the Authorization header, the only
place `pat` flows to. -/
theorem pat_noninterference (prog path p1 p2 : String) (dv tv : JVal)
    (ir : Except String HttpResponse) (pf : String → Except String IPAddr)
    (pr : Except String HttpResponse) :
    logsOf (script [prog, path] (envWithPat p1 dv tv ir pf pr)).2 =
      logsOf (script [prog, path] (envWithPat p2 dv tv ir pf pr)).2 ∧
    (script [prog, path] (envWithPat p1 dv tv ir pf pr)).1 =
      (script [prog, path] (envWithPat p2 dv tv ir pf pr)).1 ∧
    putsOf (script [prog, path] (envWithPat p1 dv tv ir pf pr)).2 =
      (putsOf (script [prog, path] (envWithPat p2 dv tv ir pf pr)).2).map
        (fun q => PutRequest.mk q.url ("Bearer " ++ p1)
          q.rrset_ttl q.rrset_values) := by
  have hcd1 : configOfData (.obj [("pat", .str p1), ("domain", dv), ("ttl", tv)]) =
      .ok ⟨.str p1, dv, tv⟩ := rfl
  have hcd2 : configOfData (.obj [("pat", .str p2), ("domain", dv), ("ttl", tv)]) =
      .ok ⟨.str p2, dv, tv⟩ := rfl
  have key : (main [prog, path] (envWithPat p1 dv tv ir pf pr)).1 =
        (main [prog, path] (envWithPat p2 dv tv ir pf pr)).1 ∧
      logsOf (main [prog, path] (envWithPat p1 dv tv ir pf pr)).2 =
        logsOf (main [prog, path] (envWithPat p2 dv tv ir pf pr)).2 ∧
      putsOf (main [prog, path] (envWithPat p1 dv tv ir pf pr)).2 =
        (putsOf (main [prog, path] (envWithPat p2 dv tv ir pf pr)).2).map
          (fun q => PutRequest.mk q.url ("Bearer " ++ p1)
            q.rrset_ttl q.rrset_values) := by
    cases hv : Config.is_valid ⟨.str p1, dv, tv⟩ with
    | mk b vlogs =>
      have hv2 : Config.is_valid ⟨.str p2, dv, tv⟩ = (b, vlogs) := by
        rw [← is_valid_pat_indep p1 p2 dv tv]
        exact hv
      cases b with
      | false =>
        have hn1 : (load_config path
            (.ok (.obj [("pat", .str p1), ("domain", dv), ("ttl", tv)]))).1 = none := by
          simp [load_config, hcd1, hv]
        have hn2 : (load_config path
            (.ok (.obj [("pat", .str p2), ("domain", dv), ("ttl", tv)]))).1 = none := by
          simp [load_config, hcd2, hv2]
        have hl : load_config path
              (.ok (.obj [("pat", .str p1), ("domain", dv), ("ttl", tv)])) =
            load_config path
              (.ok (.obj [("pat", .str p2), ("domain", dv), ("ttl", tv)])) := by
          simp only [load_config, hcd1, hcd2, hv, hv2]
        have hm1 := main_two_args_none prog path (envWithPat p1 dv tv ir pf pr) hn1
        have hm2 := main_two_args_none prog path (envWithPat p2 dv tv ir pf pr) hn2
        rw [hm1, hm2]
        refine ⟨?_, ?_, ?_⟩
        · rfl
        · simp only [envWithPat]
          rw [hl]
        · simp only [envWithPat]
          rw [hl, putsOf_load_config]
          rfl
      | true =>
        have hs1 : (load_config path
            (.ok (.obj [("pat", .str p1), ("domain", dv), ("ttl", tv)]))).1 =
              some ⟨.str p1, dv, tv⟩ := by
          simp [load_config, hcd1, hv]
        have hs2 : (load_config path
            (.ok (.obj [("pat", .str p2), ("domain", dv), ("ttl", tv)]))).1 =
              some ⟨.str p2, dv, tv⟩ := by
          simp [load_config, hcd2, hv2]
        have ht1 : (load_config path
            (.ok (.obj [("pat", .str p1), ("domain", dv), ("ttl", tv)]))).2 =
              [Event.log ("Loading config at path \x27" ++ path ++ "\x27..."),
                Event.fileRead path] := by
          simp [load_config, hcd1, hv]
        have ht2 : (load_config path
            (.ok (.obj [("pat", .str p2), ("domain", dv), ("ttl", tv)]))).2 =
              [Event.log ("Loading config at path \x27" ++ path ++ "\x27..."),
                Event.fileRead path] := by
          simp [load_config, hcd2, hv2]
        cases hgi : (get_ip_address ir pf).1 with
        | none =>
          have hm1 := main_two_args_ip_none prog path
            (envWithPat p1 dv tv ir pf pr) ⟨.str p1, dv, tv⟩ hs1 hgi
          have hm2 := main_two_args_ip_none prog path
            (envWithPat p2 dv tv ir pf pr) ⟨.str p2, dv, tv⟩ hs2 hgi
          rw [hm1, hm2]
          refine ⟨?_, ?_, ?_⟩
          · rfl
          · simp only [envWithPat]
            rw [logsOf_append, logsOf_append, ht1, ht2]
          · simp only [envWithPat]
            simp [putsOf_append, putsOf_load_config, putsOf_get_ip]
        | some a =>
          have hm1 := main_two_args_some prog path
            (envWithPat p1 dv tv ir pf pr) ⟨.str p1, dv, tv⟩ a hs1 hgi
          have hm2 := main_two_args_some prog path
            (envWithPat p2 dv tv ir pf pr) ⟨.str p2, dv, tv⟩ a hs2 hgi
          rw [hm1, hm2]
          obtain ⟨u1, u2⟩ := update_domain_pat_indep a p1 p2 dv tv pr
          refine ⟨?_, ?_, ?_⟩
          · exact u1
          · simp only [envWithPat]
            simp only [logsOf_append, ht1, ht2, u2]
          · simp only [envWithPat]
            simp [putsOf_append, putsOf_load_config, putsOf_get_ip,
              putsOf_update_domain, pyText]
  obtain ⟨k1, k2, k3⟩ := key
  refine ⟨?_, ?_, ?_⟩
  · rw [script_snd, script_snd]
    simp [logsOf, logsOf_append, List.append_eq, k1, k2]
  · rw [script_fst, script_fst, k1]
  · rw [script_snd, script_snd]
    simp [putsOf, putsOf_append, List.append_eq, k3]

end GandiDns
